import Mathlib

/-!
Shallow embedding of the CrossPilot workflow execution engine
(`workflow_engine.py`, class `WorkflowEngine`).

Python values appearing in workflow definitions, step configurations,
trigger data and step results are modelled by the inductive type `Value`.
Python dictionaries are modelled as association lists with insertion-order
semantics (`insertD` updates an existing key in place, otherwise appends).

Python exceptions are modelled with `Except String`: an `Except.error`
escaping a function corresponds to an exception propagating out of the
corresponding Python function.  The engine's `try/except/finally` block is
modelled by matching on the inner `Except` value.

Calls to `uuid.uuid4()` and `datetime.now()` are modelled as oracle streams
(`Env.uuid`, `Env.now`, `Env.date`) indexed by a call counter (`clock`)
threaded through the execution, so that the engine stays deterministic while
no particular identifier or timestamp value is baked in.
-/

/-- A Python value as used by the workflow engine. -/
inductive Value where
  | str (s : String)
  | int (n : Int)
  | bool (b : Bool)
  | list (xs : List Value)
  | dict (d : List (String × Value))
  | none

/-- Association-list lookup, modelling `d[k]` / `d.get(k)` on a Python dict
(keys are unique by construction, so first match is the match). -/
def lookupD {α : Type} : List (String × α) → String → Option α
  | [], _ => Option.none
  | kv :: rest, k => if kv.1 = k then some kv.2 else lookupD rest k

/-- Python dict insertion: update an existing key in place (keeping its
position, as CPython dicts do), otherwise append at the end. -/
def insertD {α : Type} (d : List (String × α)) (k : String) (v : α) : List (String × α) :=
  if d.any (fun kv => kv.1 = k) then d.map (fun kv => if kv.1 = k then (k, v) else kv)
  else d ++ [(k, v)]

/-- Python `{**d1, **d2}`-style merge: fold `d2`'s entries into `d1`. -/
def mergeD {α : Type} (d1 d2 : List (String × α)) : List (String × α) :=
  d2.foldl (fun acc kv => insertD acc kv.1 kv.2) d1

/-- Python `del d[k]`: remove the (unique) entry with key `k`. -/
def eraseD {α : Type} : List (String × α) → String → List (String × α)
  | [], _ => []
  | kv :: rest, k => if kv.1 = k then rest else kv :: eraseD rest k

/-- Python `d.get(k, default)`; raises `AttributeError` when the receiver is
not a dict (e.g. `step.get(...)` on a non-dict step). -/
def pyGet (v : Value) (k : String) (default : Value) : Except String Value :=
  match v with
  | .dict d => .ok ((lookupD d k).getD default)
  | _ => .error ("AttributeError: object has no attribute get (" ++ k ++ ")")

/-- Python subscript `v[k]`: `KeyError` when the key is absent, `TypeError`
when the receiver is not a dict. -/
def pyGetItem (v : Value) (k : String) : Except String Value :=
  match v with
  | .dict d =>
    match lookupD d k with
    | some w => .ok w
    | Option.none => .error ("KeyError: " ++ k)
  | _ => .error ("TypeError: object is not subscriptable (" ++ k ++ ")")

/-- Python iteration `for x in v`: lists yield their items, strings their
characters, dicts their keys; other values raise `TypeError`. -/
def pyIter (v : Value) : Except String (List Value) :=
  match v with
  | .list xs => .ok xs
  | .str s => .ok (s.data.map (fun c => Value.str (String.singleton c)))
  | .dict d => .ok (d.map (fun kv => Value.str kv.1))
  | _ => .error "TypeError: object is not iterable"

/-- Python truthiness (`if not text: ...`). -/
def pyFalsy : Value → Bool
  | .str s => s.isEmpty
  | .int n => n == 0
  | .bool b => !b
  | .list xs => xs.isEmpty
  | .dict d => d.isEmpty
  | .none => true

/-- The single-quote character used by Python `repr` of strings. -/
def pyQuote : String := String.singleton (Char.ofNat 39)

mutual

/-- Python `repr` of a value (string escaping inside containers is not
reproduced; no claim inspects the textual form of a container). -/
def pyRepr : Value → String
  | .str s => pyQuote ++ s ++ pyQuote
  | .int n => toString n
  | .bool true => "True"
  | .bool false => "False"
  | .list xs => "[" ++ pyReprList xs ++ "]"
  | .dict d => "\x7b" ++ pyReprDict d ++ "\x7d"
  | .none => "None"

/-- Comma-separated `repr` of list items. -/
def pyReprList : List Value → String
  | [] => ""
  | [v] => pyRepr v
  | v :: vs => pyRepr v ++ ", " ++ pyReprList vs

/-- Comma-separated `repr` of dict entries. -/
def pyReprDict : List (String × Value) → String
  | [] => ""
  | [kv] => pyQuote ++ kv.1 ++ pyQuote ++ ": " ++ pyRepr kv.2
  | kv :: kvs => pyQuote ++ kv.1 ++ pyQuote ++ ": " ++ pyRepr kv.2 ++ ", " ++ pyReprDict kvs

end

/-- Python `str(value)`: a string is itself, everything else its `repr`
(`str(True) = "True"`, `str(3) = "3"`, `str(None) = "None"`). -/
def pyStr : Value → String
  | .str s => s
  | v => pyRepr v

/-- Fuel-driven core of Python `str.replace`: leftmost, non-overlapping,
replaces every occurrence.  The pattern is non-empty at every call site.
Fuel `chars.length + 1` suffices since every step consumes at least one
character. -/
def replaceFuel (p r : List Char) : Nat → List Char → List Char
  | 0, cs => cs
  | _ + 1, [] => []
  | n + 1, c :: cs =>
    if p.isPrefixOf (c :: cs) then r ++ replaceFuel p r n (List.drop (p.length - 1) cs)
    else c :: replaceFuel p r n cs

/-- Python `s.replace(pat, r)`, including the empty-pattern case where
Python interleaves the replacement around every character
(`"ab".replace("", "X") = "XaXbX"`). -/
def pyReplace (s pat r : String) : String :=
  if pat.isEmpty then r ++ String.join (s.data.map (fun c => String.singleton c ++ r))
  else String.mk (replaceFuel pat.data r.data (s.data.length + 1) s.data)

/-- The result dict returned by one step executor (`success`, optional
`result` payload, optional `error` message, `executed_at` timestamp). -/
structure StepResult where
  success : Bool
  result : Option Value
  error : Option String
  executed_at : String

/-- The execution context dict built by `execute_workflow` (known key set,
hence modelled as a structure). -/
structure Ctx where
  id : String
  workflow_id : Value
  workflow_name : Value
  started_at : String
  status : String
  current_step : Nat
  trigger_data : List (String × Value)
  step_results : List StepResult
  -- the context's `variables` entry (`variables` is a reserved word in Lean)
  vars : List (String × Value)
  error : Option String
  completed_at : Option String

/-- Oracle streams for `uuid.uuid4().hex`, `datetime.now().isoformat()` and
`datetime.now().strftime("%Y%m%d")`, indexed by a call counter. -/
structure Env where
  uuid : Nat → String
  now : Nat → String
  date : Nat → String

/-- Engine state: `active_workflows`, `workflow_history`, and the oracle
call counter. -/
structure EngineState where
  active : List (String × Ctx)
  history : List Ctx
  clock : Nat

/-- `WorkflowEngine.replace_variables`: the `replacements` dict layers the
brace-wrapped built-ins, then the raw keys of `variables`, then the raw
keys of `trigger_data` (later entries overriding earlier ones). -/
def buildReplacements (ctx : Ctx) : List (String × Value) :=
  mergeD (mergeD [("\x7b\x7bworkflow_id\x7d\x7d", ctx.workflow_id),
                  ("\x7b\x7bexecution_id\x7d\x7d", Value.str ctx.id),
                  ("\x7b\x7bstarted_at\x7d\x7d", Value.str ctx.started_at)]
          ctx.vars)
         ctx.trigger_data

/-- `WorkflowEngine.replace_variables`: falsy text is returned unchanged;
a truthy non-string raises `AttributeError` (no `.replace` method);
otherwise every `(key, value)` of the replacements dict is applied in
order with `text = text.replace(key, str(value))`. -/
def replace_variables (text : Value) (ctx : Ctx) : Except String Value :=
  if pyFalsy text then .ok text
  else
    match text with
    | .str s =>
      .ok (Value.str ((buildReplacements ctx).foldl
            (fun t kv => pyReplace t kv.1 (pyStr kv.2)) s))
    | _ => .error "AttributeError: object has no attribute replace"

/-- `WorkflowEngine.execute_email_step`: reads `to`, `subject`, `template`
(defaults ""), substitutes variables in template then subject, and always
succeeds with the simulated email payload. -/
def execute_email_step (env : Env) (config : Value) (ctx : Ctx) (clock : Nat) :
    Except String (StepResult × Nat) :=
  match pyGet config "to" (Value.str "") with
  | .error e => .error e
  | .ok to_email =>
  match pyGet config "subject" (Value.str "") with
  | .error e => .error e
  | .ok subject =>
  match pyGet config "template" (Value.str "") with
  | .error e => .error e
  | .ok template =>
  match replace_variables template ctx with
  | .error e => .error e
  | .ok processed_template =>
  match replace_variables subject ctx with
  | .error e => .error e
  | .ok processed_subject =>
    let email_result := Value.dict
      [("to", to_email),
       ("subject", processed_subject),
       ("body", processed_template),
       ("sent_at", Value.str (env.now clock)),
       ("message_id", Value.str ("msg_" ++ (env.uuid (clock + 1)).take 8))]
    .ok ({ success := true, result := some email_result, error := Option.none,
           executed_at := env.now (clock + 2) }, clock + 3)

/-- `WorkflowEngine.execute_ticket_step`: reads `ticket_type`, `priority`,
`assign_to` (defaults "General", "Medium", "") and always succeeds with a
ticket payload whose id combines the current date and a random suffix. -/
def execute_ticket_step (env : Env) (config : Value) (ctx : Ctx) (clock : Nat) :
    Except String (StepResult × Nat) :=
  match pyGet config "ticket_type" (Value.str "General") with
  | .error e => .error e
  | .ok ticket_type =>
  match pyGet config "priority" (Value.str "Medium") with
  | .error e => .error e
  | .ok priority =>
  match pyGet config "assign_to" (Value.str "") with
  | .error e => .error e
  | .ok assign_to =>
    let ticket := Value.dict
      [("id", Value.str ("TKT" ++ env.date clock ++ ((env.uuid (clock + 1)).take 4).toUpper)),
       ("type", ticket_type),
       ("priority", priority),
       ("assigned_to", assign_to),
       ("created_by", Value.str "CrossPilot Workflow"),
       ("created_at", Value.str (env.now (clock + 2))),
       ("status", Value.str "open"),
       ("workflow_execution_id", Value.str ctx.id)]
    .ok ({ success := true, result := some ticket, error := Option.none,
           executed_at := env.now (clock + 3) }, clock + 4)

/-- `WorkflowEngine.execute_task_step`: reads `assign_to`, `description`,
`due_date` (defaults "") and always succeeds with a task payload. -/
def execute_task_step (env : Env) (config : Value) (ctx : Ctx) (clock : Nat) :
    Except String (StepResult × Nat) :=
  match pyGet config "assign_to" (Value.str "") with
  | .error e => .error e
  | .ok assign_to =>
  match pyGet config "description" (Value.str "") with
  | .error e => .error e
  | .ok task_description =>
  match pyGet config "due_date" (Value.str "") with
  | .error e => .error e
  | .ok due_date =>
    let task := Value.dict
      [("id", Value.str ("TSK" ++ ((env.uuid clock).take 8).toUpper)),
       ("assigned_to", assign_to),
       ("description", task_description),
       ("due_date", due_date),
       ("created_at", Value.str (env.now (clock + 1))),
       ("status", Value.str "assigned"),
       ("workflow_execution_id", Value.str ctx.id)]
    .ok ({ success := true, result := some task, error := Option.none,
           executed_at := env.now (clock + 2) }, clock + 3)

/-- `WorkflowEngine.execute_api_step`: reads `url`, `method`, `headers`,
`payload` (defaults "", "GET", empty dicts) and always succeeds with a
simulated 200 response. -/
def execute_api_step (env : Env) (config : Value) (_ctx : Ctx) (clock : Nat) :
    Except String (StepResult × Nat) :=
  match pyGet config "url" (Value.str "") with
  | .error e => .error e
  | .ok url =>
  match pyGet config "method" (Value.str "GET") with
  | .error e => .error e
  | .ok method =>
  match pyGet config "headers" (Value.dict []) with
  | .error e => .error e
  | .ok _headers =>
  match pyGet config "payload" (Value.dict []) with
  | .error e => .error e
  | .ok _payload =>
    let api_result := Value.dict
      [("url", url),
       ("method", method),
       ("status_code", Value.int 200),
       ("response", Value.dict [("success", Value.bool true),
                                ("message", Value.str "API call simulated")]),
       ("called_at", Value.str (env.now clock))]
    .ok ({ success := true, result := some api_result, error := Option.none,
           executed_at := env.now (clock + 1) }, clock + 2)

/-- `WorkflowEngine.execute_approval_step`: reads `approver`, `type`
(defaults "", "manual") and always auto-approves. -/
def execute_approval_step (env : Env) (config : Value) (ctx : Ctx) (clock : Nat) :
    Except String (StepResult × Nat) :=
  match pyGet config "approver" (Value.str "") with
  | .error e => .error e
  | .ok approver =>
  match pyGet config "type" (Value.str "manual") with
  | .error e => .error e
  | .ok approval_type =>
    let approval := Value.dict
      [("id", Value.str ("APP" ++ ((env.uuid clock).take 8).toUpper)),
       ("approver", approver),
       ("type", approval_type),
       ("status", Value.str "approved"),
       ("approved_at", Value.str (env.now (clock + 1))),
       ("workflow_execution_id", Value.str ctx.id)]
    .ok ({ success := true, result := some approval, error := Option.none,
           executed_at := env.now (clock + 2) }, clock + 3)

/-- `WorkflowEngine.execute_wait_step`: reads `duration` (default 0) and
`reason` (default "Workflow delay") and succeeds immediately. -/
def execute_wait_step (env : Env) (config : Value) (_ctx : Ctx) (clock : Nat) :
    Except String (StepResult × Nat) :=
  match pyGet config "duration" (Value.int 0) with
  | .error e => .error e
  | .ok duration =>
  match pyGet config "reason" (Value.str "Workflow delay") with
  | .error e => .error e
  | .ok reason =>
    let wait_result := Value.dict
      [("duration", duration),
       ("reason", reason),
       ("waited_at", Value.str (env.now clock))]
    .ok ({ success := true, result := some wait_result, error := Option.none,
           executed_at := env.now (clock + 1) }, clock + 2)

/-- `WorkflowEngine.evaluate_condition`: substitutes variables in the
condition string and unconditionally returns `True` (the source stub). -/
def evaluate_condition (condition : Value) (ctx : Ctx) : Except String Bool :=
  match replace_variables condition ctx with
  | .error e => .error e
  | .ok _ => .ok true

/-- `WorkflowEngine.execute_condition_step`: reads `condition`,
`true_action`, `false_action`; evaluates the condition (the always-true
stub) and reports which branch payload was taken. -/
def execute_condition_step (env : Env) (config : Value) (ctx : Ctx) (clock : Nat) :
    Except String (StepResult × Nat) :=
  match pyGet config "condition" (Value.str "") with
  | .error e => .error e
  | .ok condition =>
  match pyGet config "true_action" (Value.dict []) with
  | .error e => .error e
  | .ok true_action =>
  match pyGet config "false_action" (Value.dict []) with
  | .error e => .error e
  | .ok false_action =>
  match evaluate_condition condition ctx with
  | .error e => .error e
  | .ok condition_result =>
    let action_result := if condition_result then true_action else false_action
    .ok ({ success := true,
           result := some (Value.dict
             [("condition", condition),
              ("evaluation", Value.bool condition_result),
              ("action_taken", action_result)]),
           error := Option.none,
           executed_at := env.now clock }, clock + 1)

/-- Python `==` between a value and a string literal (used by the
`execute_step` dispatch chain). -/
def isStrEq (v : Value) (s : String) : Bool :=
  match v with
  | .str t => t = s
  | _ => false

/-- `WorkflowEngine.execute_step`: reads the step's `type` (default
"unknown") and `config` (default empty dict) — these reads happen before
the `try`, so a non-dict step raises to the caller — then dispatches on
the type tag inside a `try` that converts any executor exception into a
failed result; an unrecognized tag yields the failed
"Unknown step type" result. -/
def execute_step (env : Env) (step : Value) (ctx : Ctx) (clock : Nat) :
    Except String (StepResult × Nat) :=
  match pyGet step "type" (Value.str "unknown") with
  | .error e => .error e
  | .ok step_type =>
  match pyGet step "config" (Value.dict []) with
  | .error e => .error e
  | .ok step_config =>
    match (if isStrEq step_type "Send Email" then
             execute_email_step env step_config ctx clock
           else if isStrEq step_type "Create Ticket" then
             execute_ticket_step env step_config ctx clock
           else if isStrEq step_type "Assign Task" then
             execute_task_step env step_config ctx clock
           else if isStrEq step_type "API Call" then
             execute_api_step env step_config ctx clock
           else if isStrEq step_type "Approval" then
             execute_approval_step env step_config ctx clock
           else if isStrEq step_type "Wait" then
             execute_wait_step env step_config ctx clock
           else if isStrEq step_type "Condition" then
             execute_condition_step env step_config ctx clock
           else
             .ok ({ success := false, result := Option.none,
                    error := some ("Unknown step type: " ++ pyStr step_type),
                    executed_at := env.now clock }, clock + 1)) with
    | .ok rc => .ok rc
    | .error msg =>
      -- the per-step `except` clause; no oracle call precedes any raise
      -- point inside an executor, so the entering clock is still current
      .ok ({ success := false, result := Option.none,
             error := some ("Step execution failed: " ++ msg),
             executed_at := env.now clock }, clock + 1)

/-- The step loop of `WorkflowEngine.execute_workflow` (lines 34-43):
sets `current_step`, executes the step, appends its result, and on a
failed result stamps status `failed` with the error message and stops.
An escaping exception carries the context (and clock) as mutated so far,
feeding the run-boundary `except` clause. -/
def runSteps (env : Env) : List Value → Nat → Ctx → Nat →
    Except (String × Ctx × Nat) (Ctx × Nat)
  | [], _, ctx, clock => .ok (ctx, clock)
  | step :: rest, i, ctx, clock =>
    let ctx1 := { ctx with current_step := i }
    match execute_step env step ctx1 clock with
    | .error e => .error (e, ctx1, clock)
    | .ok (r, clock1) =>
      let ctx2 := { ctx1 with step_results := ctx1.step_results ++ [r] }
      if r.success then runSteps env rest (i + 1) ctx2 clock1
      else .ok ({ ctx2 with
                    status := "failed",
                    error := some (r.error.getD "Step execution failed") }, clock1)

/-- The fresh execution context built at the top of `execute_workflow`
(status `running`, step index 0, empty results and variable scope;
`trigger_data or {}` is the identity on the dict-valued triggers
modelled here). -/
def initCtx (env : Env) (st : EngineState) (wid wname : Value)
    (trigger_data : List (String × Value)) : Ctx :=
  { id := env.uuid st.clock,
    workflow_id := wid,
    workflow_name := wname,
    started_at := env.now (st.clock + 1),
    status := "running",
    current_step := 0,
    trigger_data := trigger_data,
    step_results := [],
    vars := [],
    error := Option.none,
    completed_at := Option.none }

/-- The `try` region of `execute_workflow` together with its `except`
clause: look up and iterate `workflow['steps']`, run the loop, promote a
still-`running` status to `completed`, stamp `completed_at`; a caught
exception instead stamps status `error` with the fault message on the
context as mutated so far. -/
def tryRun (env : Env) (workflow : Value) (ctx0 : Ctx) (clock : Nat) : Ctx × Nat :=
  match ((match pyGetItem workflow "steps" with
          | .error e => .error (e, ctx0, clock)
          | .ok stepsV =>
            match pyIter stepsV with
            | .error e => .error (e, ctx0, clock)
            | .ok steps => runSteps env steps 0 ctx0 clock) :
         Except (String × Ctx × Nat) (Ctx × Nat)) with
  | .ok (ctx1, c1) =>
    let ctx2 := if ctx1.status = "running" then { ctx1 with status := "completed" } else ctx1
    ({ ctx2 with completed_at := some (env.now c1) }, c1 + 1)
  | .error (msg, ctxE, cE) =>
    ({ ctxE with
         status := "error",
         error := some msg,
         completed_at := some (env.now cE) }, cE + 1)

/-- `WorkflowEngine.execute_workflow`: `workflow['id']` and
`workflow['name']` are read while building the context, before the `try`
block, so their `KeyError`/`TypeError` propagates to the caller with the
engine state unchanged.  Otherwise the `try` region runs, and the
`finally` clause appends a copy of the final context to history and
removes the execution from the active set. -/
def execute_workflow (env : Env) (st : EngineState) (workflow : Value)
    (trigger_data : List (String × Value)) : Except String (Ctx × EngineState) :=
  match pyGetItem workflow "id" with
  | .error e => .error e
  | .ok wid =>
  match pyGetItem workflow "name" with
  | .error e => .error e
  | .ok wname =>
    let execution_id := env.uuid st.clock
    let ctx0 := initCtx env st wid wname trigger_data
    let active1 := insertD st.active execution_id ctx0
    let res := tryRun env workflow ctx0 (st.clock + 2)
    .ok (res.1, { active := eraseD active1 execution_id,
                  history := st.history ++ [res.1],
                  clock := res.2 })

/-- `WorkflowEngine.get_workflow_history`: Python `history[-limit:]` — the
last `limit` entries, except that `limit = 0` yields the whole list
(`lst[-0:]` is `lst[0:]`). -/
def get_workflow_history (st : EngineState) (limit : Nat) : List Ctx :=
  if limit = 0 then st.history
  else st.history.drop (st.history.length - limit)

/-- Engine states reachable from a fresh engine (`__init__`: empty active
set and history) by completed `execute_workflow` calls; the query methods
do not modify state. -/
inductive Reachable (env : Env) : EngineState → Prop where
  | init : ∀ n, Reachable env ⟨[], [], n⟩
  | step : ∀ st w t ctx st', Reachable env st →
      execute_workflow env st w t = .ok (ctx, st') → Reachable env st'

/-! ### Concrete fixtures used by the claim scenarios -/

/-- A concrete oracle environment (constant streams suffice: no claim
inspects a generated identifier or timestamp value). -/
def envC : Env := ⟨fun _ => "UUIDXYZ123", fun _ => "T0", fun _ => "D0"⟩

/-- A fresh engine (`WorkflowEngine.__init__`). -/
def stInit : EngineState := ⟨[], [], 0⟩

/-- The workflow of the SendEmail scenario: one Send Email step with
config `to = "a@b.com"`, subject `Hi {{name}}`, template `Hello {{name}}`. -/
def wfC1 : Value := Value.dict
  [("id", Value.str "WF1"), ("name", Value.str "Email Flow"),
   ("steps", Value.list [Value.dict
     [("type", Value.str "Send Email"),
      ("config", Value.dict
        [("to", Value.str "a@b.com"),
         ("subject", Value.str "Hi \x7b\x7bname\x7d\x7d"),
         ("template", Value.str "Hello \x7b\x7bname\x7d\x7d")])]])]

/-- A context with built-in `execution_id = "E1"`, variable scope
`x = "a"` and trigger data `x = "b"` (the layering example). -/
def ctxLayer : Ctx :=
  { id := "E1", workflow_id := Value.str "W", workflow_name := Value.str "N",
    started_at := "T", status := "running", current_step := 0,
    trigger_data := [("x", Value.str "b")], step_results := [],
    vars := [("x", Value.str "a")], error := Option.none, completed_at := Option.none }

/-- A Create Ticket step with empty config. -/
def stepTicket : Value := Value.dict
  [("type", Value.str "Create Ticket"), ("config", Value.dict [])]

/-- A step with the unrecognized type tag "Bogus". -/
def stepBogus : Value := Value.dict
  [("type", Value.str "Bogus"), ("config", Value.dict [])]

/-- The two-step list [Create Ticket, Bogus]. -/
def ssC7 : List Value := [stepTicket, stepBogus]

/-- The [Create Ticket, Bogus] workflow as a key-value list. -/
def dC7 : List (String × Value) :=
  [("id", Value.str "WF7"), ("name", Value.str "Two Steps"),
   ("steps", Value.list ssC7)]

/-- The [Create Ticket, Bogus] workflow as a value. -/
def wfC7 : Value := Value.dict dC7

/-- A workflow that has `id` and `name` but no `steps` key. -/
def dC5 : List (String × Value) :=
  [("id", Value.str "W5"), ("name", Value.str "N5")]

/-- A zero-step workflow as a key-value list. -/
def dC9 : List (String × Value) :=
  [("id", Value.str "WF9"), ("name", Value.str "Empty"), ("steps", Value.list [])]

/-- A zero-step workflow as a value. -/
def wfC9 : Value := Value.dict dC9

/-- A workflow whose single step mapping has no `type` key. -/
def wfC10 : Value := Value.dict
  [("id", Value.str "WF10"), ("name", Value.str "NoType"),
   ("steps", Value.list [Value.dict [("config", Value.dict [])]])]

/-- The engine state after one run of the zero-step workflow (history has
exactly one entry). -/
def stAfterRun : EngineState :=
  match execute_workflow envC stInit wfC9 [] with
  | .ok p => p.2
  | .error _ => stInit

/-- The string form of a field of the first step result payload. -/
def firstPayloadField (ctx : Ctx) (k : String) : Option String :=
  match ctx.step_results.head? with
  | some r =>
    match r.result with
    | some (Value.dict d) => (lookupD d k).map pyStr
    | _ => Option.none
  | _ => Option.none


/-! ### Structural lemmas about the step loop and the run boundary -/

/-- A successfully returning step loop either keeps the entry status or
ends in status `failed` (the only status the loop ever writes). -/
theorem runSteps_status (env : Env) (l : List Value) :
    ∀ (i : Nat) (ctx : Ctx) (c : Nat) (ctx' : Ctx) (c' : Nat),
    runSteps env l i ctx c = .ok (ctx', c') →
    ctx'.status = ctx.status ∨ ctx'.status = "failed" := by
  induction l with
  | nil =>
    intro i ctx c ctx' c' h
    simp only [runSteps] at h
    cases h
    exact Or.inl rfl
  | cons s rest ih =>
    intro i ctx c ctx' c' h
    simp only [runSteps] at h
    cases hes : execute_step env s { ctx with current_step := i } c with
    | error e => rw [hes] at h; simp at h
    | ok rc =>
      obtain ⟨r, c1⟩ := rc
      rw [hes] at h
      by_cases hs : r.success
      · simp only [hs, if_true] at h
        have h2 := ih (i + 1)
          { ctx with current_step := i, step_results := ctx.step_results ++ [r] }
          c1 ctx' c' h
        exact h2
      · simp only [hs, if_false] at h
        cases h
        exact Or.inr rfl

/-- The step loop never changes the execution identifier. -/
theorem runSteps_id (env : Env) (l : List Value) :
    ∀ (i : Nat) (ctx : Ctx) (c : Nat) (ctx' : Ctx) (c' : Nat),
    runSteps env l i ctx c = .ok (ctx', c') → ctx'.id = ctx.id := by
  induction l with
  | nil =>
    intro i ctx c ctx' c' h
    simp only [runSteps] at h
    cases h
    rfl
  | cons s rest ih =>
    intro i ctx c ctx' c' h
    simp only [runSteps] at h
    cases hes : execute_step env s { ctx with current_step := i } c with
    | error e => rw [hes] at h; simp at h
    | ok rc =>
      obtain ⟨r, c1⟩ := rc
      rw [hes] at h
      by_cases hs : r.success
      · simp only [hs, if_true] at h
        have h2 := ih (i + 1)
          { ctx with current_step := i, step_results := ctx.step_results ++ [r] }
          c1 ctx' c' h
        exact h2
      · simp only [hs, if_false] at h
        cases h
        rfl

/-- A context carried by an exception escaping the step loop keeps the
execution identifier. -/
theorem runSteps_id_error (env : Env) (l : List Value) :
    ∀ (i : Nat) (ctx : Ctx) (c : Nat) (m : String) (ctxE : Ctx) (cE : Nat),
    runSteps env l i ctx c = .error (m, ctxE, cE) → ctxE.id = ctx.id := by
  induction l with
  | nil =>
    intro i ctx c m ctxE cE h
    simp only [runSteps] at h
    exact Except.noConfusion h
  | cons s rest ih =>
    intro i ctx c m ctxE cE h
    simp only [runSteps] at h
    cases hes : execute_step env s { ctx with current_step := i } c with
    | error e =>
      rw [hes] at h
      cases h
      rfl
    | ok rc =>
      obtain ⟨r, c1⟩ := rc
      rw [hes] at h
      by_cases hs : r.success
      · simp only [hs, if_true] at h
        have h2 := ih (i + 1)
          { ctx with current_step := i, step_results := ctx.step_results ++ [r] }
          c1 m ctxE cE h
        exact h2
      · simp only [hs, if_false] at h
        cases h

/-- If the step loop returns with status still `running`, no step failed,
so it appended exactly one result per step. -/
theorem runSteps_length (env : Env) (l : List Value) :
    ∀ (i : Nat) (ctx : Ctx) (c : Nat) (ctx' : Ctx) (c' : Nat),
    runSteps env l i ctx c = .ok (ctx', c') →
    ctx'.status = "running" →
    ctx'.step_results.length = ctx.step_results.length + l.length := by
  induction l with
  | nil =>
    intro i ctx c ctx' c' h _
    simp only [runSteps] at h
    cases h
    rfl
  | cons s rest ih =>
    intro i ctx c ctx' c' h hst
    simp only [runSteps] at h
    cases hes : execute_step env s { ctx with current_step := i } c with
    | error e => rw [hes] at h; simp at h
    | ok rc =>
      obtain ⟨r, c1⟩ := rc
      rw [hes] at h
      by_cases hs : r.success
      · simp only [hs, if_true] at h
        have h2 := ih (i + 1)
          { ctx with current_step := i, step_results := ctx.step_results ++ [r] }
          c1 ctx' c' h hst
        simp only [List.length_append, List.length_cons, List.length_nil] at h2 ⊢
        omega
      · simp only [hs, if_false] at h
        cases h
        simp at hst

/-- If a prefix of the step list runs through without failure, running the
whole list continues with the remaining steps from the reached context. -/
theorem runSteps_append (env : Env) (l1 : List Value) :
    ∀ (l2 : List Value) (i : Nat) (ctx : Ctx) (c : Nat) (ctx1 : Ctx) (c1 : Nat),
    runSteps env l1 i ctx c = .ok (ctx1, c1) →
    ctx1.status = "running" →
    runSteps env (l1 ++ l2) i ctx c = runSteps env l2 (i + l1.length) ctx1 c1 := by
  induction l1 with
  | nil =>
    intro l2 i ctx c ctx1 c1 h _
    simp only [runSteps] at h
    cases h
    simp [runSteps]
  | cons s rest ih =>
    intro l2 i ctx c ctx1 c1 h hst
    simp only [runSteps] at h
    simp only [List.cons_append, runSteps]
    cases hes : execute_step env s { ctx with current_step := i } c with
    | error e => rw [hes] at h; simp at h
    | ok rc =>
      obtain ⟨r, c2⟩ := rc
      rw [hes] at h
      by_cases hs : r.success
      · simp only [hs, if_true] at h ⊢
        have h2 := ih l2 (i + 1)
          { ctx with current_step := i, step_results := ctx.step_results ++ [r] }
          c2 ctx1 c1 h hst
        have hidx : i + (s :: rest).length = i + 1 + rest.length := by
          simp only [List.length_cons]; omega
        rw [hidx]
        exact h2
      · simp only [hs, if_false] at h
        cases h
        simp at hst

/-- A failing step ends the loop at once: the result is independent of the
remaining steps (fail-fast). -/
theorem runSteps_stop (env : Env) (s : Value) (rest : List Value) (i : Nat)
    (ctx : Ctx) (c : Nat) (r : StepResult) (c1 : Nat)
    (hes : execute_step env s { ctx with current_step := i } c = .ok (r, c1))
    (hr : r.success = false) :
    runSteps env (s :: rest) i ctx c =
      .ok ({ ctx with
               current_step := i,
               step_results := ctx.step_results ++ [r],
               status := "failed",
               error := some (r.error.getD "Step execution failed") }, c1) := by
  simp only [runSteps]
  rw [hes]
  simp [hr]

/-- Unfolding of `execute_workflow` on a workflow dict that has `id` and
`name` entries: the run returns normally, appends the final context to
history, and removes the execution from the active set. -/
theorem execute_workflow_eq (env : Env) (st : EngineState)
    (trig : List (String × Value)) (d : List (String × Value)) (wid wname : Value)
    (hid : lookupD d "id" = some wid) (hname : lookupD d "name" = some wname) :
    execute_workflow env st (Value.dict d) trig =
      .ok ((tryRun env (Value.dict d) (initCtx env st wid wname trig) (st.clock + 2)).1,
           { active := eraseD (insertD st.active (env.uuid st.clock)
                         (initCtx env st wid wname trig)) (env.uuid st.clock),
             history := st.history ++
               [(tryRun env (Value.dict d) (initCtx env st wid wname trig) (st.clock + 2)).1],
             clock := (tryRun env (Value.dict d) (initCtx env st wid wname trig) (st.clock + 2)).2 }) := by
  simp only [execute_workflow, pyGetItem, hid, hname]

/-- If the loop finishes with status still `running`, the run boundary
promotes the status to `completed` and stamps the completion timestamp. -/
theorem tryRun_completed (env : Env) (d : List (String × Value)) (ss : List Value)
    (ctx0 : Ctx) (c : Nat) (ctx1 : Ctx) (c1 : Nat)
    (hsteps : lookupD d "steps" = some (Value.list ss))
    (hrun : runSteps env ss 0 ctx0 c = .ok (ctx1, c1))
    (hst : ctx1.status = "running") :
    tryRun env (Value.dict d) ctx0 c =
      ({ ctx1 with status := "completed", completed_at := some (env.now c1) }, c1 + 1) := by
  simp only [tryRun, pyGetItem, hsteps, pyIter, hrun, hst, if_true]

/-- If the loop finishes with status `failed`, the run boundary keeps the
failed status and stamps the completion timestamp. -/
theorem tryRun_failed (env : Env) (d : List (String × Value)) (ss : List Value)
    (ctx0 : Ctx) (c : Nat) (ctx1 : Ctx) (c1 : Nat)
    (hsteps : lookupD d "steps" = some (Value.list ss))
    (hrun : runSteps env ss 0 ctx0 c = .ok (ctx1, c1))
    (hst : ctx1.status = "failed") :
    tryRun env (Value.dict d) ctx0 c =
      ({ ctx1 with completed_at := some (env.now c1) }, c1 + 1) := by
  simp only [tryRun, pyGetItem, hsteps, pyIter, hrun, hst]
  rw [if_neg (by decide)]
  rw [hst]

/-- A workflow without a `steps` key faults inside the run boundary: the
caught `KeyError` sets status `error` with the fault message. -/
theorem tryRun_no_steps (env : Env) (d : List (String × Value)) (ctx0 : Ctx) (c : Nat)
    (hsteps : lookupD d "steps" = Option.none) :
    tryRun env (Value.dict d) ctx0 c =
      ({ ctx0 with
           status := "error",
           error := some "KeyError: steps",
           completed_at := some (env.now c) }, c + 1) := by
  simp only [tryRun, pyGetItem, hsteps]
  rfl

/-- Whatever happens inside the run boundary, the resulting context is in a
terminal status, has a completion timestamp, and keeps its identifier. -/
theorem tryRun_terminal (env : Env) (w : Value) (ctx0 : Ctx) (c : Nat)
    (h0 : ctx0.status = "running") :
    ((tryRun env w ctx0 c).1.status = "completed" ∨ (tryRun env w ctx0 c).1.status = "failed" ∨
     (tryRun env w ctx0 c).1.status = "error") ∧
    (tryRun env w ctx0 c).1.completed_at.isSome = true ∧
    (tryRun env w ctx0 c).1.id = ctx0.id := by
  unfold tryRun
  split
  next ctx1 c1 heq =>
    have hrun : ∃ ss, runSteps env ss 0 ctx0 c = .ok (ctx1, c1) := by
      split at heq
      · exact Except.noConfusion heq
      · split at heq
        · exact Except.noConfusion heq
        · exact ⟨_, heq⟩
    obtain ⟨ss, hrun⟩ := hrun
    have hs := runSteps_status env ss 0 ctx0 c ctx1 c1 hrun
    have hid := runSteps_id env ss 0 ctx0 c ctx1 c1 hrun
    rw [h0] at hs
    by_cases h1 : ctx1.status = "running"
    · simp [h1, hid]
    · rcases hs with hs | hs
      · exact absurd hs h1
      · simp [h1, hs, hid]
  next msg ctxE cE heq =>
    have hidE : ctxE.id = ctx0.id := by
      split at heq
      · cases heq
        rfl
      · split at heq
        · cases heq
          rfl
        · exact runSteps_id_error env _ 0 ctx0 c msg ctxE cE heq
    simp [hidE]

/-- Engine runs are synchronous: every reachable state has an empty active
set (each run removes its own entry in the `finally` clause). -/
theorem reachable_active_nil (env : Env) :
    ∀ st : EngineState, Reachable env st → st.active = [] := by
  intro st h
  induction h with
  | init n => rfl
  | step st w t ctx st' _ hok ih =>
    unfold execute_workflow at hok
    split at hok
    · exact Except.noConfusion hok
    · split at hok
      · exact Except.noConfusion hok
      · cases hok
        simp [insertD, eraseD, ih]

/-! ### Claim theorems -/

/-- Claim C1: the SendEmail scenario (config to `a@b.com`, subject
`Hi {{name}}`, template `Hello {{name}}`, trigger `name = "Sam"`) does
complete with one StepResult, but because `replace_variables` merges the
variable-scope and trigger keys without wrapping them in braces, the
resolved subject is `Hi {{Sam}}` and the body `Hello {{Sam}}`, not
`Hi Sam` / `Hello Sam` as the claim states. -/
theorem claim_c1_send_email_scenario :
    ∃ ctx st', execute_workflow envC stInit wfC1 [("name", Value.str "Sam")] = .ok (ctx, st') ∧
      ctx.status = "completed" ∧ ctx.step_results.length = 1 ∧
      firstPayloadField ctx "subject" = some "Hi \x7b\x7bSam\x7d\x7d" ∧
      firstPayloadField ctx "body" = some "Hello \x7b\x7bSam\x7d\x7d" ∧
      ("Hi \x7b\x7bSam\x7d\x7d" : String) ≠ "Hi Sam" :=
  ⟨_, _, rfl, rfl, rfl, rfl, rfl, by decide⟩

/-- Claim C2: with built-in `execution_id = "E1"`, scope `x = "a"` and
trigger `x = "b"`, substituting `{{x}}-{{execution_id}}` yields
`{{b}}-E1`, not `b-E1`: the trigger value does override the scope value,
but it replaces the bare key `x` (braces left in place), not the
placeholder `{{x}}` as the claim states. -/
theorem claim_c2_layering_substitution :
    replace_variables (Value.str "\x7b\x7bx\x7d\x7d-\x7b\x7bexecution_id\x7d\x7d") ctxLayer =
      .ok (Value.str "\x7b\x7bb\x7d\x7d-E1") ∧
    ("\x7b\x7bb\x7d\x7d-E1" : String) ≠ "b-E1" :=
  ⟨rfl, by decide⟩

/-- Claim C3: the text `x` contains no `{{...}}` placeholder, yet
substitution against a context whose trigger data binds `x = "b"`
rewrites it to `b`: substitution is not the identity on placeholder-free
text, because raw variable/trigger keys are replaced wherever they occur. -/
theorem claim_c3_no_placeholder_changed :
    replace_variables (Value.str "x") ctxLayer = .ok (Value.str "b") ∧
    ("b" : String) ≠ "x" :=
  ⟨rfl, by decide⟩

/-- Claim C4: if the steps up to 0-based index `j` (1-indexed position
`k = j + 1`) run without failure and the step at index `j` produces a
failing StepResult, the run returns status `failed`, records that
result's error message, has exactly `j + 1` results, and executing the
full step list equals executing only its first `j + 1` steps (no later
step executor is invoked). -/
theorem claim_c4_fail_fast (env : Env) (st : EngineState) (trig : List (String × Value))
    (d : List (String × Value)) (wid wname : Value) (ss : List Value)
    (hid : lookupD d "id" = some wid) (hname : lookupD d "name" = some wname)
    (hsteps : lookupD d "steps" = some (Value.list ss))
    (j : Nat) (hj : j < ss.length)
    (ctx1 : Ctx) (c1 : Nat) (r : StepResult) (c2 : Nat)
    (H1 : runSteps env (ss.take j) 0 (initCtx env st wid wname trig) (st.clock + 2) =
            .ok (ctx1, c1))
    (Hst : ctx1.status = "running")
    (H2 : execute_step env ss[j] { ctx1 with current_step := j } c1 = .ok (r, c2))
    (Hr : r.success = false) :
    ∃ ctxF stF, execute_workflow env st (Value.dict d) trig = .ok (ctxF, stF) ∧
      ctxF.status = "failed" ∧
      ctxF.error = some (r.error.getD "Step execution failed") ∧
      ctxF.step_results.length = j + 1 ∧
      runSteps env ss 0 (initCtx env st wid wname trig) (st.clock + 2) =
        runSteps env (ss.take (j + 1)) 0 (initCtx env st wid wname trig) (st.clock + 2) := by
  have hdecomp : ss = ss.take j ++ (ss[j] :: ss.drop (j + 1)) := by
    conv_lhs => rw [← List.take_append_drop j ss]
    rw [List.drop_eq_getElem_cons hj]
  have htake : ss.take (j + 1) = ss.take j ++ [ss[j]] := by
    rw [List.take_succ, List.getElem?_eq_getElem hj]
    rfl
  have hlen_take : (ss.take j).length = j := by
    rw [List.length_take]
    omega
  have happ := runSteps_append env (ss.take j) (ss[j] :: ss.drop (j + 1)) 0
    (initCtx env st wid wname trig) (st.clock + 2) ctx1 c1 H1 Hst
  have happ2 := runSteps_append env (ss.take j) [ss[j]] 0
    (initCtx env st wid wname trig) (st.clock + 2) ctx1 c1 H1 Hst
  rw [hlen_take, Nat.zero_add] at happ happ2
  have hstop := runSteps_stop env ss[j] (ss.drop (j + 1)) j ctx1 c1 r c2 H2 Hr
  have hstop2 := runSteps_stop env ss[j] [] j ctx1 c1 r c2 H2 Hr
  have hfull : runSteps env ss 0 (initCtx env st wid wname trig) (st.clock + 2) =
      .ok ({ ctx1 with
               current_step := j,
               step_results := ctx1.step_results ++ [r],
               status := "failed",
               error := some (r.error.getD "Step execution failed") }, c2) := by
    conv_lhs => rw [hdecomp]
    rw [happ, hstop]
  have hlen1 : ctx1.step_results.length = j := by
    have := runSteps_length env (ss.take j) 0
      (initCtx env st wid wname trig) (st.clock + 2) ctx1 c1 H1 Hst
    simpa [initCtx, hlen_take] using this
  have htry := tryRun_failed env d ss (initCtx env st wid wname trig) (st.clock + 2)
    ({ ctx1 with
         current_step := j,
         step_results := ctx1.step_results ++ [r],
         status := "failed",
         error := some (r.error.getD "Step execution failed") }) c2 hsteps hfull rfl
  have hexe := execute_workflow_eq env st trig d wid wname hid hname
  rw [htry] at hexe
  refine ⟨_, _, hexe, rfl, rfl, ?_, ?_⟩
  · simp [hlen1]
  · rw [hfull, htake, happ2, hstop2]

/-- Claim C4 witness: the [Create Ticket, Bogus] workflow fails at 0-based
index 1 (position 2) with exactly two results, and running both steps
equals running only the first two steps. -/
theorem claim_c4_fail_fast_witness :
    ∃ ctxF stF, execute_workflow envC stInit (Value.dict dC7) [] = .ok (ctxF, stF) ∧
      ctxF.status = "failed" ∧
      ctxF.error = some "Unknown step type: Bogus" ∧
      ctxF.step_results.length = 2 ∧
      runSteps envC ssC7 0
          (initCtx envC stInit (Value.str "WF7") (Value.str "Two Steps") [])
          (stInit.clock + 2) =
        runSteps envC (ssC7.take 2) 0
          (initCtx envC stInit (Value.str "WF7") (Value.str "Two Steps") [])
          (stInit.clock + 2) :=
  claim_c4_fail_fast envC stInit [] dC7 (Value.str "WF7") (Value.str "Two Steps") ssC7
    rfl rfl rfl 1 (by decide) _ _ _ _ rfl rfl rfl rfl

/-- Claim C5 counterexample: `execute_workflow` on the malformed workflow
`{}` raises `KeyError: id` to the caller (the `workflow['id']` read sits
before the `try` block), so the run operation is not exception-free for
every workflow value, and no context reaches history. -/
theorem claim_c5_counterexample :
    execute_workflow envC stInit (Value.dict []) [] = Except.error "KeyError: id" := rfl

/-- Claim C5 (amended): for workflow mappings that contain `id` and `name`
entries, `execute_workflow` returns normally, the context is moved to
history, and a fault inside the run boundary (here: a missing `steps`
key) yields status `error` with the fault message recorded. -/
theorem claim_c5_run_boundary (env : Env) (st : EngineState) (trig : List (String × Value))
    (d : List (String × Value)) (wid wname : Value)
    (hid : lookupD d "id" = some wid) (hname : lookupD d "name" = some wname) :
    ∃ ctx st', execute_workflow env st (Value.dict d) trig = .ok (ctx, st') ∧
      st'.history = st.history ++ [ctx] ∧
      (lookupD d "steps" = Option.none →
        ctx.status = "error" ∧ ctx.error = some "KeyError: steps") := by
  have hexe := execute_workflow_eq env st trig d wid wname hid hname
  refine ⟨_, _, hexe, rfl, fun hnone => ?_⟩
  rw [tryRun_no_steps env d _ _ hnone]
  exact ⟨rfl, rfl⟩

/-- Claim C5 witness: a workflow with `id` and `name` but no `steps` key
returns normally with status `error` and lands in history. -/
theorem claim_c5_run_boundary_witness :
    ∃ ctx st', execute_workflow envC stInit (Value.dict dC5) [] = .ok (ctx, st') ∧
      st'.history = stInit.history ++ [ctx] ∧
      (lookupD dC5 "steps" = Option.none →
        ctx.status = "error" ∧ ctx.error = some "KeyError: steps") :=
  claim_c5_run_boundary envC stInit [] dC5 (Value.str "W5") (Value.str "N5") rfl rfl

/-- Claim C6 counterexample: after one run the history has one entry, and
`history(0)` returns that entry (`lst[-0:]` is the whole list), so for
the non-negative limit 0 the result exceeds the limit. -/
theorem claim_c6_counterexample :
    (get_workflow_history stAfterRun 0).length = 1 ∧
    ¬ ((get_workflow_history stAfterRun 0).length ≤ 0) :=
  ⟨rfl, by decide⟩

/-- Claim C6 (amended): for every positive limit, `history(limit)` returns
at most `limit` entries (exactly `min limit |history|`), those entries
are a suffix of the history list (the most recent ones, oldest to newest),
and no returned entry is in the active set. -/
theorem claim_c6_history_window (env : Env) (st : EngineState) (limit : Nat)
    (hreach : Reachable env st) (hl : 0 < limit) :
    (get_workflow_history st limit).length = min limit st.history.length ∧
    get_workflow_history st limit <:+ st.history ∧
    ∀ e ∈ get_workflow_history st limit, lookupD st.active e.id = Option.none := by
  have ha := reachable_active_nil env st hreach
  unfold get_workflow_history
  rw [if_neg (by omega)]
  refine ⟨?_, List.drop_suffix _ _, ?_⟩
  · rw [List.length_drop]
    omega
  · intro e _
    rw [ha]
    rfl

/-- Claim C6 witness: the amended window property at the fresh engine with
limit 1. -/
theorem claim_c6_history_window_witness :
    (get_workflow_history stInit 1).length = min 1 stInit.history.length ∧
    get_workflow_history stInit 1 <:+ stInit.history ∧
    ∀ e ∈ get_workflow_history stInit 1, lookupD stInit.active e.id = Option.none :=
  claim_c6_history_window envC stInit 1 (Reachable.init 0) (by decide)

/-- Claim C7: a step whose type tag is any string outside the seven
recognized kinds yields a failed StepResult with the message
`Unknown step type: <tag>` and no exception; and the concrete
[Create Ticket, Bogus] workflow ends failed with two results, the second
reporting `Unknown step type: Bogus`. -/
theorem claim_c7_unknown_step_type :
    (∀ (env : Env) (ctx : Ctx) (clock : Nat) (tag : String) (d : List (String × Value)),
       lookupD d "type" = some (Value.str tag) →
       tag ∉ (["Send Email", "Create Ticket", "Assign Task", "API Call",
               "Approval", "Wait", "Condition"] : List String) →
       execute_step env (Value.dict d) ctx clock =
         .ok ({ success := false, result := Option.none,
                error := some ("Unknown step type: " ++ tag),
                executed_at := env.now clock }, clock + 1)) ∧
    (∃ ctx st', execute_workflow envC stInit wfC7 [] = .ok (ctx, st') ∧
       ctx.status = "failed" ∧ ctx.step_results.length = 2 ∧
       (ctx.step_results.drop 1).head?.map (fun r => r.error) =
         some (some "Unknown step type: Bogus")) := by
  constructor
  · intro env ctx clock tag d htype hmem
    simp only [List.mem_cons, List.mem_singleton, not_or] at hmem
    obtain ⟨h1, h2, h3, h4, h5, h6, h7⟩ := hmem
    simp [execute_step, pyGet, htype, isStrEq, pyStr, h1, h2, h3, h4, h5, h6, h7]
  · exact ⟨_, _, rfl, rfl, rfl, rfl⟩

/-- Claim C7 witness: the universal part applied to the tag `Bogus`. -/
theorem claim_c7_unknown_step_type_witness :
    execute_step envC (Value.dict [("type", Value.str "Bogus")]) ctxLayer 5 =
      .ok ({ success := false, result := Option.none,
             error := some "Unknown step type: Bogus",
             executed_at := envC.now 5 }, 5 + 1) :=
  claim_c7_unknown_step_type.1 envC ctxLayer 5 "Bogus"
    [("type", Value.str "Bogus")] rfl (by decide)

/-- Claim C8: whenever `execute_workflow` returns (on a reachable engine
state), the returned context has a terminal status (`completed`, `failed`
or `error`, never `running`), carries a completion timestamp, its
identifier is not in the active set, and exactly one entry bearing that
identifier has been appended to history. -/
theorem claim_c8_terminal_state (env : Env) (st : EngineState) (w : Value)
    (trig : List (String × Value)) (ctx : Ctx) (st' : EngineState)
    (hreach : Reachable env st)
    (h : execute_workflow env st w trig = .ok (ctx, st')) :
    (ctx.status = "completed" ∨ ctx.status = "failed" ∨ ctx.status = "error") ∧
    ctx.completed_at.isSome = true ∧
    lookupD st'.active ctx.id = Option.none ∧
    st'.history = st.history ++ [ctx] ∧
    st'.history.countP (fun e => e.id == ctx.id) =
      st.history.countP (fun e => e.id == ctx.id) + 1 := by
  have ha := reachable_active_nil env st hreach
  unfold execute_workflow at h
  split at h
  next e heq => exact Except.noConfusion h
  next wid heqid =>
    split at h
    next e heq => exact Except.noConfusion h
    next wname heqname =>
      cases h
      have hterm := tryRun_terminal env w (initCtx env st wid wname trig)
        (st.clock + 2) rfl
      refine ⟨hterm.1, hterm.2.1, ?_, rfl, ?_⟩
      · rw [ha]
        simp [insertD, eraseD, lookupD]
      · simp [List.countP_append, List.countP_cons]

/-- Claim C8 witness: the terminal-state property at a concrete run of the
zero-step workflow on the fresh engine. -/
theorem claim_c8_terminal_state_witness :
    ∃ ctx st', execute_workflow envC stInit wfC9 [] = .ok (ctx, st') ∧
      (ctx.status = "completed" ∨ ctx.status = "failed" ∨ ctx.status = "error") ∧
      ctx.completed_at.isSome = true ∧
      lookupD st'.active ctx.id = Option.none ∧
      st'.history = stInit.history ++ [ctx] ∧
      st'.history.countP (fun e => e.id == ctx.id) =
        stInit.history.countP (fun e => e.id == ctx.id) + 1 :=
  ⟨_, _, rfl, claim_c8_terminal_state envC stInit wfC9 [] _ _ (Reachable.init 0) rfl⟩

/-- Claim C9: every workflow mapping with `id`, `name` and an empty step
list runs to status `completed` with an empty result list. -/
theorem claim_c9_empty_workflow (env : Env) (st : EngineState) (trig : List (String × Value))
    (d : List (String × Value)) (wid wname : Value)
    (hid : lookupD d "id" = some wid) (hname : lookupD d "name" = some wname)
    (hsteps : lookupD d "steps" = some (Value.list [])) :
    ∃ ctx st', execute_workflow env st (Value.dict d) trig = .ok (ctx, st') ∧
      ctx.status = "completed" ∧ ctx.step_results = [] := by
  have hrun : runSteps env ([] : List Value) 0 (initCtx env st wid wname trig)
      (st.clock + 2) = .ok (initCtx env st wid wname trig, st.clock + 2) := rfl
  have htry := tryRun_completed env d [] (initCtx env st wid wname trig) (st.clock + 2)
    (initCtx env st wid wname trig) (st.clock + 2) hsteps hrun rfl
  have hexe := execute_workflow_eq env st trig d wid wname hid hname
  rw [htry] at hexe
  exact ⟨_, _, hexe, rfl, rfl⟩

/-- Claim C9 witness: the concrete zero-step workflow completes with no
results. -/
theorem claim_c9_empty_workflow_witness :
    ∃ ctx st', execute_workflow envC stInit (Value.dict dC9) [] = .ok (ctx, st') ∧
      ctx.status = "completed" ∧ ctx.step_results = [] :=
  claim_c9_empty_workflow envC stInit [] dC9 (Value.str "WF9") (Value.str "Empty") rfl rfl rfl

/-- Claim C10: a step mapping with no `type` key defaults to the tag
`unknown`, so `execute_step` returns (no exception) a failed StepResult
with message `Unknown step type: unknown`; and a run containing such a
step halts at it with status `failed`. -/
theorem claim_c10_missing_type_key :
    (∀ (env : Env) (ctx : Ctx) (clock : Nat) (d : List (String × Value)),
       lookupD d "type" = Option.none →
       execute_step env (Value.dict d) ctx clock =
         .ok ({ success := false, result := Option.none,
                error := some "Unknown step type: unknown",
                executed_at := env.now clock }, clock + 1)) ∧
    (∃ ctx st', execute_workflow envC stInit wfC10 [] = .ok (ctx, st') ∧
       ctx.status = "failed" ∧ ctx.step_results.length = 1 ∧
       ctx.error = some "Unknown step type: unknown") := by
  constructor
  · intro env ctx clock d htype
    simp [execute_step, pyGet, htype, isStrEq, pyStr]
  · exact ⟨_, _, rfl, rfl, rfl, rfl⟩

/-- Claim C10 witness: the universal part applied to the empty step
mapping. -/
theorem claim_c10_missing_type_key_witness :
    execute_step envC (Value.dict []) ctxLayer 3 =
      .ok ({ success := false, result := Option.none,
             error := some "Unknown step type: unknown",
             executed_at := envC.now 3 }, 3 + 1) :=
  claim_c10_missing_type_key.1 envC ctxLayer 3 [] rfl
